import Mathlib

/-! Shallow embedding of `src/hack_app.py`, a Flask application that fetches
financial news pages from the MarketAux API, normalizes the raw records into
canonical article dicts, and attaches a per-article summary/sentiment analysis
produced by two local inference pipelines. The HTTP transport, the JSON
decoder and the inference backends are modelled explicitly as data (an
exception becomes an explicit constructor); everything else follows the
source line by line. Line numbers in the doc comments refer to
`src/hack_app.py`. -/

/-- A JSON scalar as it appears in a decoded MarketAux record; `null` also
stands for the Python `None` that `dict.get` yields for an absent key once an
`Option` wrapper has been collapsed. -/
inductive JValue where
  | null
  | bool (b : Bool)
  | int (n : Int)
  | str (s : String)
deriving DecidableEq

/-- Python truthiness (`bool(x)`) for the scalars of `JValue`. -/
def pyTruthy : JValue → Bool
  | .null => false
  | .bool b => b
  | .int n => n != 0
  | .str s => s != ""

/-- Python `x or y`: the left operand when truthy, else the right operand. -/
def pyOr (x y : JValue) : JValue := if pyTruthy x then x else y

/-- Python `str(x)` on a JSON scalar. -/
def pyStr : JValue → String
  | .null => "None"
  | .bool true => "True"
  | .bool false => "False"
  | .int n => toString n
  | .str s => s

/-- Python slicing `s[:n]`, counting characters exactly as Python does. -/
def pySlice (s : String) (n : Nat) : String := ⟨s.data.take n⟩

/-- One raw record of the MarketAux `data` list. A `none` field means the key
is absent (`dict.get` then yields Python `None`). Following the upstream
interface, `published_at` is an ISO-8601 timestamp string when present; the
other optional fields keep their raw JSON scalar. -/
structure RawArticle where
  title : Option JValue := none
  url : Option JValue := none
  source : Option JValue := none
  published_at : Option String := none
  description : Option JValue := none
  snippet : Option JValue := none
deriving DecidableEq

/-- Lines 90-93: `content = article.get('description') or article.get('snippet')
or article.get('title', '')`, followed by
`if not isinstance(content, str): content = str(content) if content is not None
else ''`. -/
def contentForAnalysis (a : RawArticle) : String :=
  let content := pyOr (a.description.getD .null)
    (pyOr (a.snippet.getD .null) (a.title.getD (.str "")))
  match content with
  | .str s => s
  | .null => ""
  | v => pyStr v

/-- The naive date-time carried by a parsed timestamp; the offset and the
fractional seconds are validated during parsing but are not retained, because
`strftime('%Y-%m-%d %H:%M')` never reads them. -/
structure PyDateTime where
  year : Nat
  month : Nat
  day : Nat
  hour : Nat
  minute : Nat
  second : Nat
deriving DecidableEq

/-- Decimal value of a digit character. -/
def digitVal (c : Char) : Nat := c.toNat - 48

/-- Read exactly `k` decimal digits, returning their value and the remaining
characters. -/
def readDigits : Nat → List Char → Nat → Option (Nat × List Char)
  | 0, cs, acc => some (acc, cs)
  | _ + 1, [], _ => none
  | k + 1, c :: cs, acc =>
    if c.isDigit then readDigits k cs (acc * 10 + digitVal c) else none

/-- Consume one expected character. -/
def expectChar (c : Char) : List Char → Option (List Char)
  | d :: rest => if d = c then some rest else none
  | [] => none

/-- Fractional seconds: exactly six or exactly three digits. -/
def readFrac (cs : List Char) : Option (List Char) :=
  match readDigits 6 cs 0 with
  | some (_, rest) => some rest
  | none =>
    match readDigits 3 cs 0 with
    | some (_, rest) => some rest
    | none => none

/-- `HH[:MM[:SS[.fff or .ffffff]]]` returning hour, minute, second and the
remaining characters. -/
def parseTimePart (cs : List Char) : Option (Nat × Nat × Nat × List Char) := do
  let (h, cs1) ← readDigits 2 cs 0
  match cs1 with
  | ':' :: rest => do
    let (mi, cs2) ← readDigits 2 rest 0
    match cs2 with
    | ':' :: rest2 => do
      let (sec, cs3) ← readDigits 2 rest2 0
      match cs3 with
      | '.' :: rest3 => do
        let cs4 ← readFrac rest3
        pure (h, mi, sec, cs4)
      | _ => pure (h, mi, sec, cs3)
    | _ => pure (h, mi, 0, cs2)
  | _ => pure (h, 0, 0, cs1)

/-- The trailing UTC-offset part: empty, or `±HH:MM` with a valid range.
(Sub-minute offsets, which Python also accepts, are omitted from the model;
nothing in the repository produces them.) -/
def parseOffsetPart : List Char → Option Unit
  | [] => some ()
  | c :: rest =>
    if c = '+' ∨ c = '-' then
      match rest with
      | h1 :: h2 :: ':' :: m1 :: m2 :: tail =>
        if h1.isDigit ∧ h2.isDigit ∧ m1.isDigit ∧ m2.isDigit ∧ tail = []
            ∧ (digitVal h1 * 10 + digitVal h2) ≤ 23
            ∧ (digitVal m1 * 10 + digitVal m2) ≤ 59 then
          some ()
        else none
      | _ => none
    else none

/-- Gregorian leap year. -/
def isLeap (y : Nat) : Bool := (y % 4 = 0 ∧ y % 100 ≠ 0) ∨ y % 400 = 0

/-- Days in a month of a given year. -/
def daysInMonth (y m : Nat) : Nat :=
  if m = 2 then (if isLeap y then 29 else 28)
  else if m = 4 ∨ m = 6 ∨ m = 9 ∨ m = 11 then 30
  else 31

/-- Modelled from the spec: Python `datetime.datetime.fromisoformat`, the
library parser the code calls on line 99 (missing from `src/` because it is
standard-library code). The code maps 'Z' to '+00:00' first, so the pre-3.11
grammar is the target: `YYYY-MM-DD`, optionally one separator character
followed by `HH[:MM[:SS[.fff or .ffffff]]]`, optionally a `±HH:MM` offset;
all fields range-checked. `none` models the `ValueError` the code catches on
line 102. -/
def fromisoformat (s : String) : Option PyDateTime := do
  let (y, cs1) ← readDigits 4 s.data 0
  let cs2 ← expectChar '-' cs1
  let (mo, cs3) ← readDigits 2 cs2 0
  let cs4 ← expectChar '-' cs3
  let (d, cs5) ← readDigits 2 cs4 0
  let dt ← (match cs5 with
    | [] => some (PyDateTime.mk y mo d 0 0 0)
    | _sep :: rest => do
      let (h, mi, sec, cs6) ← parseTimePart rest
      let _ ← parseOffsetPart cs6
      some (PyDateTime.mk y mo d h mi sec))
  if 1 ≤ y ∧ 1 ≤ mo ∧ mo ≤ 12 ∧ 1 ≤ d ∧ d ≤ daysInMonth y mo
      ∧ dt.hour ≤ 23 ∧ dt.minute ≤ 59 ∧ dt.second ≤ 59 then
    some dt
  else none

/-- Zero-pad to two digits. -/
def pad2 (n : Nat) : String := if n < 10 then "0" ++ toString n else toString n

/-- Zero-pad to four digits. -/
def pad4 (n : Nat) : String :=
  if n < 10 then "000" ++ toString n
  else if n < 100 then "00" ++ toString n
  else if n < 1000 then "0" ++ toString n
  else toString n

/-- `dt_obj.strftime('%Y-%m-%d %H:%M')` (line 101). -/
def strftimeYmdHM (dt : PyDateTime) : String :=
  pad4 dt.year ++ "-" ++ pad2 dt.month ++ "-" ++ pad2 dt.day ++ " "
    ++ pad2 dt.hour ++ ":" ++ pad2 dt.minute

/-- `published_at.replace('Z', '+00:00')` (line 100): every 'Z' is replaced. -/
def replaceZ : List Char → List Char
  | [] => []
  | c :: rest =>
    if c = 'Z' then '+' :: '0' :: '0' :: ':' :: '0' :: '0' :: replaceZ rest
    else c :: replaceZ rest

/-- String form of `replaceZ`. -/
def pyReplaceZ (s : String) : String := ⟨replaceZ s.data⟩

/-- Lines 95-105: `published_dt_str` starts as "N/A", is recomputed only when
`published_at` is truthy (present and non-empty), becomes the formatted
rendering when `fromisoformat` succeeds, and falls back to the raw string when
it raises `ValueError`. -/
def publishedDisplay : Option String → String
  | none => "N/A"
  | some s =>
    if s = "" then "N/A"
    else
      match fromisoformat (pyReplaceZ s) with
      | some dt => strftimeYmdHM dt
      | none => s

/-- The canonical article dict built on lines 107-113. `title`, `link` and
`source` keep whatever JSON value `dict.get` produced (the code does not
coerce them); the two derived fields are strings by construction. -/
structure Article where
  title : JValue
  link : JValue
  source : JValue
  published_utc : String
  content_for_analysis : String
deriving DecidableEq

/-- Lines 89-113: normalization of one raw record. -/
def normalizeArticle (a : RawArticle) : Article :=
  { title := a.title.getD (.str "No Title")
    link := a.url.getD (.str "#")
    source := a.source.getD (.str "Unknown Source")
    published_utc := publishedDisplay a.published_at
    content_for_analysis := contentForAnalysis a }

/-- The `data` field of a decoded response body: a list of records, or present
but not a list (`isinstance(data['data'], list)` fails). -/
inductive DataField where
  | list (records : List RawArticle)
  | notList
deriving DecidableEq

/-- The `error` field of a decoded response body: a dict with optional string
`code` and `message` entries, or present but not a dict. -/
inductive ErrorField where
  | dict (code : Option String) (message : Option String)
  | notDict
deriving DecidableEq

/-- A decoded JSON response body, as far as `fetch_marketaux_news` inspects
it: the `data` and `error` keys (`none` when the key is absent). -/
structure Envelope where
  dataField : Option DataField := none
  errorField : Option ErrorField := none
deriving DecidableEq

/-- Outcome of the `requests.get` call on line 74: a transport-level exception
(`requests.exceptions.RequestException`, e.g. timeout or connection error), or
a response carrying its status code, its body text, and the result of decoding
the body as JSON (`none` when `response.json()` raises). -/
inductive HttpOutcome where
  | transportError (msg : String)
  | response (status : Nat) (text : String) (json : Option Envelope)
deriving DecidableEq

/-- Return value of `fetch_marketaux_news`: the dict with an `articles` key or
the dict with an `error` key. -/
inductive FetchResult where
  | ok (articles : List Article)
  | error (msg : String)
deriving DecidableEq

/-- The module constant of line 16. -/
def MARKETAUX_API_KEY : String := "G4qN7vEnOdTBRN4MuLAZbXOg7q93fFV9AlB9J38x"

/-- Lines 131-136: the error detail built inside the `HTTPError` handler.
`response.json().get('error', {})` then `.get('message', ...)`: a message
entry wins; an absent `error` key (or absent `message`) falls back to the
bare status; a JSON decode failure — or an `error` value that is not a dict,
whose `.get` raises `AttributeError` — lands in the bare `except` clause with
the status plus the body truncated to 200 characters. -/
def httpErrorDetail (status : Nat) (text : String) (json : Option Envelope) : String :=
  match json with
  | some env =>
    match env.errorField with
    | some (.dict _ message) => message.getD ("Status " ++ toString status)
    | some .notDict => "Status " ++ toString status ++ ", Body: " ++ pySlice text 200
    | none => "Status " ++ toString status
  | none => "Status " ++ toString status ++ ", Body: " ++ pySlice text 200

/-- Stand-in for the library-internal text of the `JSONDecodeError` raised by
`response.json()` on a 2xx body that is not JSON; it is caught as a
`RequestException` and its exact wording comes from the `requests` library,
not from this repository. -/
def jsonDecodeMessage : String := "JSONDecodeError"

/-- `fetch_marketaux_news` (lines 47-144). The query, page and limit
parameters only shape the outbound request, which is abstracted into the
`upstream` outcome, so they are not repeated here; `apiKey` stays a parameter
to express the missing-credential branch. `response.raise_for_status()` raises
`HTTPError` exactly for status codes in [400, 600). -/
def fetch_marketaux_news (apiKey : String) (upstream : HttpOutcome) : FetchResult :=
  if apiKey = "" then
    .error "Server configuration error: Missing MarketAux API Key."
  else
    match upstream with
    | .transportError msg => .error ("Network or API request error: " ++ msg)
    | .response status text json =>
      if 400 ≤ status ∧ status < 600 then
        .error ("HTTP error connecting to MarketAux: " ++ httpErrorDetail status text json)
      else
        match json with
        | none => .error ("Network or API request error: " ++ jsonDecodeMessage)
        | some env =>
          match env.dataField with
          | some (.list records) => .ok (records.map normalizeArticle)
          | _ =>
            match env.errorField with
            | some (.dict code message) =>
              .error ("MarketAux News API Error (" ++ code.getD "N/A" ++ "): "
                ++ message.getD "Unknown API error from MarketAux")
            | _ => .error "Unexpected response format received from MarketAux."

/-- Result of one backend pipeline call: a produced string, or a raised
exception (`.exn` models any exception inside the corresponding `try`
block). -/
inductive StageResult where
  | ok (val : String)
  | exn
deriving DecidableEq

/-- The process-wide inference backend. `loaded` is `models_loaded`; it is set
only after both pipelines were constructed, so it also stands for the two
`is None` checks of line 150. `summaryStage` is the body of the first `try`
block (lines 157-167: tokenizer truncation to 512 tokens, decode, then
`summarizer(..., max_length=100, min_length=20, do_sample=False)` yielding
`summary_text`) as one fallible function of the raw input text;
`sentimentStage` is `sentiment_analyzer(.)[0]['label']` of line 173. -/
structure Models where
  loaded : Bool
  summaryStage : String → StageResult
  sentimentStage : String → StageResult

/-- Return value of `analyze_content`: either the dict with an `error` key, or
a dict with exactly the keys `summary` and `sentiment`. -/
inductive AnalysisResult where
  | err (msg : String)
  | ok (summary : String) (sentiment : String)
deriving DecidableEq

/-- `analyze_content` (lines 147-179). The input is typed `str` and every call
site passes the (string) `content_for_analysis`, so the `isinstance` guard of
line 152 reduces to the truthiness test. The sentiment stage receives the
first 512 characters of the raw input (`text[:512]`, line 173). -/
def analyze_content (m : Models) (text : String) : AnalysisResult :=
  if m.loaded = false then .err "ML models not available."
  else if text = "" then .ok "No content provided for analysis." "N/A"
  else
    let summary :=
      match m.summaryStage text with
      | .ok s => s
      | .exn => "Error generating summary."
    let sentiment :=
      match m.sentimentStage (pySlice text 512) with
      | .ok l => l
      | .exn => "Error analyzing sentiment."
    .ok summary sentiment

/-- An article dict after a route has attached its `analysis` entry. -/
structure ProcessedArticle where
  article : Article
  analysis : AnalysisResult
deriving DecidableEq

/-- One iteration of the per-article loops (lines 615-622 and 690-698): when
`content_for_analysis` is truthy (non-empty) the analyzer's result is
attached, otherwise the no-content error dict of the call site. The second
component counts how often the analyzer was invoked for this article (ghost
instrumentation; the routes drop it). -/
def processOne (analyze : String → AnalysisResult) (noContentMsg : String)
    (a : Article) : ProcessedArticle × Nat :=
  if a.content_for_analysis ≠ "" then (⟨a, analyze a.content_for_analysis⟩, 1)
  else (⟨a, .err noContentMsg⟩, 0)

/-- What the `home` route hands to `render_template_string` (lines 628-635). -/
structure HomeRender where
  articles : List ProcessedArticle
  errorMsg : Option String
  current_page : Int
  next_page : Int
deriving DecidableEq

/-- `home` (lines 578-635). `pageParam` is the already int-converted `page`
query argument, clamped to ≥ 1; `upstream` is the HTTP exchange behind the
inner `fetch_marketaux_news` call (made with the fixed feed query and page
size 5). When the models failed to load, the fetch still happens and each
returned article gets the dummy analysis dict of line 604; a fetch error
overwrites the model-load error message (line 598). -/
def home (m : Models) (pageParam : Int) (upstream : HttpOutcome) : HomeRender :=
  let current_page : Int := if pageParam < 1 then 1 else pageParam
  let step :=
    if m.loaded = false then
      match fetch_marketaux_news MARKETAUX_API_KEY upstream with
      | .error e => ([], some e)
      | .ok arts =>
        (arts.map (fun a => ProcessedArticle.mk a (.err "ML models not loaded.")),
         some "ML Models failed to load. Analysis functionality may be limited.")
    else
      match fetch_marketaux_news MARKETAUX_API_KEY upstream with
      | .error e => ([], some e)
      | .ok arts =>
        (arts.map (fun a => (processOne (analyze_content m) "No content for analysis." a).1),
         none)
  { articles := step.1
    errorMsg := step.2
    current_page := current_page
    next_page := current_page + 1 }

/-- What `analyze_news_route` renders: the index template with a search error,
the results template with a fetch error, or the results template with the
processed articles. -/
inductive AnalyzeResponse where
  | indexPage (search_error : String) (current_page next_page : Int)
  | resultsError (topic : String) (error : String) (current_page next_page : Int)
  | resultsPage (topic : String) (articles : List ProcessedArticle)
      (current_page next_page : Int)
deriving DecidableEq

/-- The `next_page` value handed to the template. -/
def AnalyzeResponse.nextPage : AnalyzeResponse → Int
  | .indexPage _ _ n => n
  | .resultsError _ _ _ n => n
  | .resultsPage _ _ _ n => n

/-- The `current_page` value handed to the template. -/
def AnalyzeResponse.currentPage : AnalyzeResponse → Int
  | .indexPage _ c _ => c
  | .resultsError _ _ c _ => c
  | .resultsPage _ _ c _ => c

/-- `analyze_news_route` (lines 640-709). `topic` is
`request.form.get('topic')` (`none` when the field is missing — falsy, like
the empty string); `pageForm` is the already int-converted `page` field,
clamped to ≥ 1. When the models failed to load, the route returns the index
template immediately, before any fetch. -/
def analyze_news_route (m : Models) (topic : Option String) (pageForm : Int)
    (upstream : HttpOutcome) : AnalyzeResponse :=
  if m.loaded = false then
    .indexPage "ML Models are not available. Check server logs." 1 2
  else
    let current_page : Int := if pageForm < 1 then 1 else pageForm
    match topic with
    | none => .indexPage "Please enter a news topic or ticker." 1 2
    | some t =>
      if t = "" then .indexPage "Please enter a news topic or ticker." 1 2
      else
        match fetch_marketaux_news MARKETAUX_API_KEY upstream with
        | .error e => .resultsError t e current_page (current_page + 1)
        | .ok arts =>
          .resultsPage t
            (arts.map (fun a =>
              (processOne (analyze_content m)
                "No description/snippet available from MarketAux for analysis." a).1))
            current_page (current_page + 1)

/-- The displayed market-effect category. -/
inductive SentimentCategory where
  | positive
  | negative
  | neutral
deriving DecidableEq

/-- The sentiment rendering of both Jinja templates (lines 339-346 and
519-526): `sentiment == 'POSITIVE'` shows the positive category,
`elif sentiment == 'NEGATIVE'` the negative one, and the `else` branch shows
neutral. -/
def displaySentiment (label : String) : SentimentCategory :=
  if label = "POSITIVE" then .positive
  else if label = "NEGATIVE" then .negative
  else .neutral

/-- `needle` occurs as a contiguous substring of `hay`. -/
def strContains (hay needle : String) : Bool :=
  (List.range (hay.data.length + 1)).any fun i => needle.data.isPrefixOf (hay.data.drop i)

/-! Sample inputs shared by several witnesses. -/

/-- A backend handle that failed to initialize. -/
def unloadedModels : Models :=
  { loaded := false, summaryStage := fun _ => .exn, sentimentStage := fun _ => .exn }

/-- A loaded backend whose two stages both raise. -/
def bothRaise : Models :=
  { loaded := true, summaryStage := fun _ => .exn, sentimentStage := fun _ => .exn }

/-- A loaded backend whose summarization stage raises while the sentiment
stage yields "POSITIVE". -/
def summaryRaises : Models :=
  { loaded := true, summaryStage := fun _ => .exn, sentimentStage := fun _ => .ok "POSITIVE" }

/-- A normalized article with empty analyzable text. -/
def sampleEmptyArticle : Article :=
  { title := .str "T", link := .str "#", source := .str "S",
    published_utc := "N/A", content_for_analysis := "" }

/-- The spec's scenario record: null description, snippet "Fed raises rates". -/
def fedRecord : RawArticle :=
  { description := some .null, snippet := some (.str "Fed raises rates") }

/-- A record whose description and snippet are present but falsy. -/
def falsyRecord : RawArticle :=
  { description := some (.str ""), snippet := some (.int 0),
    title := some (.str "Headline") }

/-- C3: one iteration of the per-article loop attaches the no-content error
dict with zero analyzer invocations when `content_for_analysis` is empty, and
otherwise attaches exactly the analyzer's result on the analyzable text, with
exactly one invocation. -/
theorem c3_no_content_isolation (analyze : String → AnalysisResult)
    (noContentMsg : String) (a : Article) :
    (a.content_for_analysis = "" →
      processOne analyze noContentMsg a = (⟨a, .err noContentMsg⟩, 0))
    ∧ (a.content_for_analysis ≠ "" →
      processOne analyze noContentMsg a = (⟨a, analyze a.content_for_analysis⟩, 1)) := by
  constructor
  · intro h
    simp [processOne, h]
  · intro h
    simp [processOne, h]

/-- Witness for C3 at a concrete empty-text article. -/
theorem c3_no_content_isolation_witness :
    sampleEmptyArticle.content_for_analysis = ""
    ∧ processOne (fun _ => .err "unused") "No content for analysis." sampleEmptyArticle
        = (⟨sampleEmptyArticle, .err "No content for analysis."⟩, 0) :=
  ⟨rfl, (c3_no_content_isolation (fun _ => .err "unused")
    "No content for analysis." sampleEmptyArticle).1 rfl⟩

/-- C4: with the backend loaded and a non-empty input, the two stages of
`analyze_content` fail independently — a raising summarization stage yields
the summary "Error generating summary." while whatever label the sentiment
stage produced on the first 512 characters is kept, and a raising sentiment
stage yields "Error analyzing sentiment." while whatever summary the other
stage produced is kept. -/
theorem c4_stage_independence (m : Models) (text : String)
    (hl : m.loaded = true) (ht : text ≠ "") :
    (∀ l, m.summaryStage text = .exn → m.sentimentStage (pySlice text 512) = .ok l →
      analyze_content m text = .ok "Error generating summary." l)
    ∧ (∀ s, m.summaryStage text = .ok s → m.sentimentStage (pySlice text 512) = .exn →
      analyze_content m text = .ok s "Error analyzing sentiment.") := by
  constructor
  · intro l h1 h2
    simp [analyze_content, hl, ht, h1, h2]
  · intro s h1 h2
    simp [analyze_content, hl, ht, h1, h2]

/-- Witness for C4: a raising summarizer next to a succeeding sentiment
stage. -/
theorem c4_stage_independence_witness :
    summaryRaises.loaded = true
    ∧ ("news text" : String) ≠ ""
    ∧ analyze_content summaryRaises "news text" = .ok "Error generating summary." "POSITIVE" :=
  ⟨rfl, by decide,
    (c4_stage_independence summaryRaises "news text" rfl (by decide)).1 "POSITIVE" rfl rfl⟩

/-- C9: with the backend loaded and a non-empty input, `analyze_content`
always returns the summary/sentiment dict and never the error dict — even
when both stages raise, in which case the two stand-in strings fill the two
slots. -/
theorem c9_no_error_key (m : Models) (text : String)
    (hl : m.loaded = true) (ht : text ≠ "") :
    (∃ s l, analyze_content m text = .ok s l)
    ∧ (∀ msg, analyze_content m text ≠ .err msg)
    ∧ (m.summaryStage text = .exn → m.sentimentStage (pySlice text 512) = .exn →
      analyze_content m text = .ok "Error generating summary." "Error analyzing sentiment.") := by
  refine ⟨?_, ?_, ?_⟩
  · cases h1 : m.summaryStage text with
    | ok s =>
      cases h2 : m.sentimentStage (pySlice text 512) with
      | ok l => exact ⟨s, l, by simp [analyze_content, hl, ht, h1, h2]⟩
      | exn => exact ⟨s, "Error analyzing sentiment.",
          by simp [analyze_content, hl, ht, h1, h2]⟩
    | exn =>
      cases h2 : m.sentimentStage (pySlice text 512) with
      | ok l => exact ⟨"Error generating summary.", l,
          by simp [analyze_content, hl, ht, h1, h2]⟩
      | exn => exact ⟨"Error generating summary.", "Error analyzing sentiment.",
          by simp [analyze_content, hl, ht, h1, h2]⟩
  · intro msg
    simp [analyze_content, hl, ht]
  · intro h1 h2
    simp [analyze_content, hl, ht, h1, h2]

/-- Witness for C9: both stages raise, the result still has both slots. -/
theorem c9_no_error_key_witness :
    bothRaise.loaded = true
    ∧ ("news text" : String) ≠ ""
    ∧ analyze_content bothRaise "news text"
        = .ok "Error generating summary." "Error analyzing sentiment." :=
  ⟨rfl, by decide, (c9_no_error_key bothRaise "news text" rfl (by decide)).2.2 rfl rfl⟩

/-- `x or y` keeps the right operand when the left one is falsy. -/
theorem pyOr_of_truthy_false {x : JValue} (h : pyTruthy x = false) (y : JValue) :
    pyOr x y = y := by
  simp [pyOr, h]

/-- `x or y` keeps the left operand when it is truthy. -/
theorem pyOr_of_truthy_true {x : JValue} (h : pyTruthy x = true) (y : JValue) :
    pyOr x y = x := by
  simp [pyOr, h]

/-- `None or y` is `y`. -/
theorem pyOr_null (y : JValue) : pyOr .null y = y := rfl

/-- C5: `content_for_analysis` follows the description → snippet → title
priority (a field is selected when truthy), coerces a selected non-string
scalar with Python `str` (shown here for a non-zero integer description), and
on the spec's scenario — null description, snippet "Fed raises rates" — equals
the snippet text. By the return type of `contentForAnalysis` the result is a
string, never null. -/
theorem c5_priority_and_coercion (a : RawArticle) :
    (∀ s, a.description = some (.str s) → s ≠ "" → contentForAnalysis a = s)
    ∧ (∀ s, pyTruthy (a.description.getD .null) = false →
        a.snippet = some (.str s) → s ≠ "" → contentForAnalysis a = s)
    ∧ (∀ s, pyTruthy (a.description.getD .null) = false →
        pyTruthy (a.snippet.getD .null) = false → a.title = some (.str s) →
        contentForAnalysis a = s)
    ∧ (∀ n : Int, a.description = some (.int n) → n ≠ 0 →
        contentForAnalysis a = toString n)
    ∧ (a.description = some .null → a.snippet = some (.str "Fed raises rates") →
        contentForAnalysis a = "Fed raises rates") := by
  refine ⟨?_, ?_, ?_, ?_, ?_⟩
  · intro s hd hs
    have h2 : pyTruthy (JValue.str s) = true := by simp [pyTruthy, hs]
    simp only [contentForAnalysis, hd, Option.getD_some, pyOr_of_truthy_true h2]
  · intro s hd hsn hs
    have h2 : pyTruthy (JValue.str s) = true := by simp [pyTruthy, hs]
    simp only [contentForAnalysis, hsn, Option.getD_some,
      pyOr_of_truthy_false hd, pyOr_of_truthy_true h2]
  · intro s hd hsn ht
    simp only [contentForAnalysis, ht, Option.getD_some,
      pyOr_of_truthy_false hd, pyOr_of_truthy_false hsn]
  · intro n hd hn
    have h2 : pyTruthy (JValue.int n) = true := by simp [pyTruthy, hn]
    simp only [contentForAnalysis, hd, Option.getD_some, pyOr_of_truthy_true h2]
    rfl
  · intro hd hsn
    have h2 : pyTruthy (JValue.str "Fed raises rates") = true := by decide
    simp only [contentForAnalysis, hd, hsn, Option.getD_some, pyOr_null,
      pyOr_of_truthy_true h2]

/-- Witness for C5 at the spec's scenario record. -/
theorem c5_priority_and_coercion_witness :
    fedRecord.description = some .null
    ∧ fedRecord.snippet = some (.str "Fed raises rates")
    ∧ contentForAnalysis fedRecord = "Fed raises rates" :=
  ⟨rfl, rfl, (c5_priority_and_coercion fedRecord).2.2.2.2 rfl rfl⟩

/-- C10: the field selection behind `content_for_analysis` goes by Python
truthiness, not presence — a record whose description is present but falsy
(empty string, 0, False, null) selects exactly as if the description were
absent, and likewise for a present-but-falsy snippet. -/
theorem c10_falsy_fallthrough (a : RawArticle) (v : JValue)
    (hd : a.description = some v) (hv : pyTruthy v = false) :
    contentForAnalysis a = contentForAnalysis { a with description := none }
    ∧ (∀ w, a.snippet = some w → pyTruthy w = false →
      contentForAnalysis a
        = contentForAnalysis { a with description := none, snippet := none }) := by
  constructor
  · simp only [contentForAnalysis, hd, Option.getD_some, Option.getD_none,
      pyOr_of_truthy_false hv, pyOr_null]
  · intro w hs hw
    simp only [contentForAnalysis, hd, hs, Option.getD_some, Option.getD_none,
      pyOr_of_truthy_false hv, pyOr_of_truthy_false hw, pyOr_null]

/-- Witness for C10: empty-string description and integer-zero snippet fall
through to the title. -/
theorem c10_falsy_fallthrough_witness :
    falsyRecord.description = some (.str "")
    ∧ pyTruthy (.str "") = false
    ∧ contentForAnalysis falsyRecord
        = contentForAnalysis { falsyRecord with description := none }
    ∧ contentForAnalysis falsyRecord = "Headline" :=
  ⟨rfl, rfl, (c10_falsy_fallthrough falsyRecord (.str "") rfl rfl).1, rfl⟩

/-- C7: the templates map a sentiment label equal to exactly "POSITIVE" to the
positive category, exactly "NEGATIVE" to the negative one, and any other
label — including the "N/A" sentinel and the stage-failure string — to
neutral. -/
theorem c7_sentiment_mapping (label : String) :
    (label = "POSITIVE" → displaySentiment label = .positive)
    ∧ (label = "NEGATIVE" → displaySentiment label = .negative)
    ∧ (label ≠ "POSITIVE" → label ≠ "NEGATIVE" → displaySentiment label = .neutral)
    ∧ displaySentiment "N/A" = .neutral
    ∧ displaySentiment "Error analyzing sentiment." = .neutral := by
  refine ⟨?_, ?_, ?_, ?_, ?_⟩
  · intro h
    subst h
    decide
  · intro h
    subst h
    decide
  · intro h1 h2
    simp [displaySentiment, h1, h2]
  · decide
  · decide

/-- Witness for C7 at the label "POSITIVE". -/
theorem c7_sentiment_mapping_witness :
    ("POSITIVE" : String) = "POSITIVE"
    ∧ displaySentiment "POSITIVE" = .positive :=
  ⟨rfl, (c7_sentiment_mapping "POSITIVE").1 rfl⟩

/-- C8: both routes always hand the presentation layer
`next_page = current_page + 1`, with the current page clamped to at least 1,
independently of the upstream outcome (in particular of whether the page had
any articles) and with no upper bound derived from a total-results count. -/
theorem c8_next_page (m : Models) (p : Int) (upstream : HttpOutcome)
    (topic : Option String) :
    (home m p upstream).next_page = (home m p upstream).current_page + 1
    ∧ 1 ≤ (home m p upstream).current_page
    ∧ (analyze_news_route m topic p upstream).nextPage
        = (analyze_news_route m topic p upstream).currentPage + 1 := by
  refine ⟨rfl, ?_, ?_⟩
  · have h : (home m p upstream).current_page = if p < 1 then 1 else p := rfl
    rw [h]
    split
    · exact le_refl 1
    · omega
  · unfold analyze_news_route
    split
    · rfl
    · cases topic with
      | none => rfl
      | some t =>
        by_cases ht : t = ""
        · simp only [ht, if_pos rfl]
          rfl
        · simp only [if_neg ht]
          cases fetch_marketaux_news MARKETAUX_API_KEY upstream with
          | ok arts => rfl
          | error e => rfl

/-- C1 (counterexample): the spec's 429 scenario. The upstream response has
status 429 and a body decoding to an error dict with code "rate_limit" and
message "Too many requests" (the body text itself is not read on this path, so
it is left empty here). The returned error message carries the human message
but does not contain the machine code "rate_limit" anywhere, contradicting the
claim that it contains both; the code+message combination is only built on the
2xx path of line 122. -/
theorem c1_counterexample :
    fetch_marketaux_news MARKETAUX_API_KEY
      (.response 429 ""
        (some { dataField := none,
                errorField := some (.dict (some "rate_limit") (some "Too many requests")) }))
      = .error "HTTP error connecting to MarketAux: Too many requests"
    ∧ strContains "HTTP error connecting to MarketAux: Too many requests" "rate_limit"
        = false := by
  constructor
  · rfl
  · decide

/-- C1 (amended): for a 4xx/5xx upstream response whose body decodes to a
structured error dict with a message, the returned error message is the
upstream human message behind the fixed prefix — the machine code is not
included; when the body does not decode as JSON, the error carries the raw
status and the body truncated to at most 200 characters. -/
theorem c1_amended (status : Nat) (text : String) (code : Option String)
    (message : String) (h : 400 ≤ status ∧ status < 600) :
    fetch_marketaux_news MARKETAUX_API_KEY
      (.response status text
        (some { dataField := none, errorField := some (.dict code (some message)) }))
      = .error ("HTTP error connecting to MarketAux: " ++ message)
    ∧ fetch_marketaux_news MARKETAUX_API_KEY (.response status text none)
      = .error ("HTTP error connecting to MarketAux: "
          ++ ("Status " ++ toString status ++ ", Body: " ++ pySlice text 200))
    ∧ (pySlice text 200).length ≤ 200 := by
  have hk : ¬ (MARKETAUX_API_KEY = "") := by decide
  refine ⟨?_, ?_, ?_⟩
  · simp only [fetch_marketaux_news, if_neg hk, if_pos h, httpErrorDetail, Option.getD_some]
  · simp only [fetch_marketaux_news, if_neg hk, if_pos h, httpErrorDetail]
  · have : (pySlice text 200).length = (text.data.take 200).length := rfl
    rw [this, List.length_take]
    omega

/-- Witness for C1's amended theorem at status 429 and body "not json". -/
theorem c1_amended_witness :
    (400 ≤ 429 ∧ 429 < 600)
    ∧ (fetch_marketaux_news MARKETAUX_API_KEY
        (.response 429 "not json"
          (some { dataField := none,
                  errorField := some (.dict (some "rate_limit") (some "Too many requests")) }))
        = .error ("HTTP error connecting to MarketAux: " ++ "Too many requests")
      ∧ fetch_marketaux_news MARKETAUX_API_KEY (.response 429 "not json" none)
        = .error ("HTTP error connecting to MarketAux: "
            ++ ("Status " ++ toString 429 ++ ", Body: " ++ pySlice "not json" 200))
      ∧ (pySlice "not json" 200).length ≤ 200) :=
  ⟨by decide, c1_amended 429 "not json" (some "rate_limit") "Too many requests" (by decide)⟩

/-- C2 (counterexample): with the backend unloaded and an upstream 200 page
holding one article, the `home` route performs the fetch and attaches the
error dict with message "ML models not loaded." to the article — not the
claimed "ML models not available." (that string belongs to `analyze_content`,
which is never called on this path). -/
theorem c2_counterexample :
    (home unloadedModels 1
      (.response 200 ""
        (some { dataField := some (.list [{ title := some (.str "T"),
                                            description := some (.str "D") }]),
                errorField := none }))).articles.map (fun p => p.analysis)
      = [.err "ML models not loaded."]
    ∧ AnalysisResult.err "ML models not loaded." ≠ .err "ML models not available." := by
  constructor
  · rfl
  · decide

/-- C2 (amended): when the inference backend failed to initialize, the home
route still performs the fetch and, when it succeeds, every returned article
gets the error dict with message "ML models not loaded." attached while the
page-level message stays the degraded-mode warning; the topic-search route, by
contrast, skips the fetch entirely and renders the index page with a
page-level search error, independently of the upstream outcome. -/
theorem c2_amended (m : Models) (p : Int) (upstream : HttpOutcome)
    (arts : List Article) (hm : m.loaded = false)
    (hf : fetch_marketaux_news MARKETAUX_API_KEY upstream = .ok arts) :
    (home m p upstream).articles
      = arts.map (fun a => ProcessedArticle.mk a (.err "ML models not loaded."))
    ∧ (home m p upstream).errorMsg
      = some "ML Models failed to load. Analysis functionality may be limited."
    ∧ ∀ (topic : Option String) (pageForm : Int) (upstream2 : HttpOutcome),
        analyze_news_route m topic pageForm upstream2
          = .indexPage "ML Models are not available. Check server logs." 1 2 := by
  refine ⟨?_, ?_, ?_⟩
  · simp only [home, hm, if_pos rfl, hf, if_true, eq_self_iff_true]
  · simp only [home, hm, if_pos rfl, hf, if_true, eq_self_iff_true]
  · intro topic pageForm upstream2
    simp only [analyze_news_route, hm, if_pos rfl, if_true, eq_self_iff_true]

/-- Witness for C2's amended theorem: unloaded backend, upstream 200 with an
empty data list. -/
theorem c2_amended_witness :
    unloadedModels.loaded = false
    ∧ fetch_marketaux_news MARKETAUX_API_KEY
        (.response 200 "" (some { dataField := some (.list []), errorField := none }))
        = .ok []
    ∧ (home unloadedModels 1
        (.response 200 "" (some { dataField := some (.list []), errorField := none }))).articles
        = ([] : List Article).map (fun a => ProcessedArticle.mk a (.err "ML models not loaded.")) :=
  ⟨rfl, by rfl,
    (c2_amended unloadedModels 1
      (.response 200 "" (some { dataField := some (.list []), errorField := none }))
      [] rfl (by rfl)).1⟩

/-- C6 (counterexample): a record whose `published_at` is present but equal to
the empty string. The empty string is not a parseable ISO-8601 date, yet
`published_display` is "N/A" rather than the original raw string, because the
code tests Python truthiness (line 97), not key presence. -/
theorem c6_counterexample :
    fromisoformat (pyReplaceZ "") = none
    ∧ publishedDisplay (some "") = "N/A"
    ∧ ("N/A" : String) ≠ "" := by
  refine ⟨rfl, rfl, by decide⟩

/-- C6 (amended): `published_display` is "N/A" when `published_at` is absent
or falsy (the empty string); for a present, non-empty timestamp that does not
parse (after mapping 'Z' to '+00:00') it is the raw string unchanged; for a
parseable one it is the '%Y-%m-%d %H:%M' rendering; and normalization of a
2xx batch is an independent per-record map, so one record's fallback never
affects the others. -/
theorem c6_amended (p : Option String) :
    (p = none → publishedDisplay p = "N/A")
    ∧ (p = some "" → publishedDisplay p = "N/A")
    ∧ (∀ s, p = some s → s ≠ "" → fromisoformat (pyReplaceZ s) = none →
        publishedDisplay p = s)
    ∧ (∀ s dt, p = some s → s ≠ "" → fromisoformat (pyReplaceZ s) = some dt →
        publishedDisplay p = strftimeYmdHM dt)
    ∧ (∀ records, fetch_marketaux_news MARKETAUX_API_KEY
        (.response 200 ""
          (some { dataField := some (.list records), errorField := none }))
        = .ok (records.map normalizeArticle)) := by
  refine ⟨?_, ?_, ?_, ?_, ?_⟩
  · intro h
    subst h
    rfl
  · intro h
    subst h
    rfl
  · intro s hp hs hparse
    subst hp
    simp only [publishedDisplay, if_neg hs, hparse]
  · intro s dt hp hs hparse
    subst hp
    simp only [publishedDisplay, if_neg hs, hparse]
  · intro records
    rfl

/-- Witness for C6's amended theorem at the parseable timestamp
"2023-01-15T12:30:00Z". -/
theorem c6_amended_witness :
    (some "2023-01-15T12:30:00Z" : Option String) = some "2023-01-15T12:30:00Z"
    ∧ ("2023-01-15T12:30:00Z" : String) ≠ ""
    ∧ fromisoformat (pyReplaceZ "2023-01-15T12:30:00Z") = some ⟨2023, 1, 15, 12, 30, 0⟩
    ∧ publishedDisplay (some "2023-01-15T12:30:00Z") = strftimeYmdHM ⟨2023, 1, 15, 12, 30, 0⟩
    ∧ strftimeYmdHM ⟨2023, 1, 15, 12, 30, 0⟩ = "2023-01-15 12:30" :=
  ⟨rfl, by decide, rfl,
    (c6_amended (some "2023-01-15T12:30:00Z")).2.2.2.1 "2023-01-15T12:30:00Z"
      ⟨2023, 1, 15, 12, 30, 0⟩ rfl (by decide) rfl,
    rfl⟩
